import Mathlib

/-!
Shallow embedding of the Collapse OS shell emulator harness
(`tools/emul/shell/shell.c`): the I/O-port bus, the block-device
addressing state machine, and the memory subsystem, together with proofs
of the testable properties of its specification.

Machine integers are modelled as `Nat` with explicit `% 2^w` where the C
code truncates (`addr &= 0xff`, the `(uint8_t)` cast of `getchar`'s
result).  Byte-valued parameters (`uint8_t val`) are modelled as `Nat`
arguments together with `< 256` hypotheses in the theorems.  The host
streams are modelled explicitly: `stdin` as a list of pending input
bytes (empty list = end of stream), `stdout` as the list of bytes
emitted so far (most recent first), and `stderr` as the list of
diagnostics emitted so far (most recent first).
-/

/-- `MAX_FSDEV_SIZE` from shell.c: capacity of the block-device buffer. -/
def MAX_FSDEV_SIZE : Nat := 0x20000

/-- `RAMSTART` from shell.c: first writable address; below it is ROM. -/
def RAMSTART : Nat := 0x4000

/-- Port 0: stdin / stdout. -/
def STDIO_PORT : Nat := 0x00

/-- Port 1: block-device data read/write. -/
def FS_DATA_PORT : Nat := 0x01

/-- Port 2: block-device address latch / status. -/
def FS_ADDR_PORT : Nat := 0x02

/-- One diagnostic message on the emulator's error channel, one
constructor per `fprintf(stderr, ...)` site in shell.c, carrying the
values the C code formats into the message. -/
inductive Diag where
  | readMidLatch (ptr : Nat)
  | oobFsdevRead (ptr : Nat)
  | oobIoRead (port : Nat)
  | writeMidLatch (ptr : Nat)
  | oobFsdevWrite (ptr : Nat)
  | oobIoWrite (port : Nat) (val : Nat)
  | writeROM (addr : Nat)
  deriving DecidableEq, Repr

/-- The mutable state of the emulator harness: the 64 KiB memory image
`mem`, the block-device buffer `fsdev` with its 24-bit cursor
`fsdev_ptr` and latch phase `fsdev_addr_lvl` (0 = idle, 1 = received
MSB, 2 = received middle byte), the run flag `running`, and the three
host streams. -/
structure ShellState where
  mem : Nat → Nat
  fsdev : Nat → Nat
  fsdev_ptr : Nat
  fsdev_addr_lvl : Nat
  running : Bool
  stdin : List Nat
  stdout : List Nat
  stderr : List Diag

/-- `io_read` from shell.c.  Takes the current state and the 16-bit port
number, returns the byte read and the successor state.  The C code
masks the port with `0xff` first.  On port 0, `getchar` returning `EOF`
is the empty-`stdin` case: the C code clears `running` and returns
`(uint8_t)EOF = 0xff`; otherwise the next input byte is consumed and
returned through the `(uint8_t)` cast. -/
def io_read (s : ShellState) (addr : Nat) : Nat × ShellState :=
  let addr := addr % 256
  if addr = STDIO_PORT then
    match s.stdin with
    | [] => (0xff, { s with running := false })
    | c :: rest => (c % 256, { s with stdin := rest })
  else if addr = FS_DATA_PORT then
    if s.fsdev_addr_lvl ≠ 0 then
      (0, { s with stderr := Diag.readMidLatch s.fsdev_ptr :: s.stderr })
    else if s.fsdev_ptr < MAX_FSDEV_SIZE then
      (s.fsdev s.fsdev_ptr, s)
    else if MAX_FSDEV_SIZE ≤ s.fsdev_ptr then
      (0, { s with stderr := Diag.oobFsdevRead s.fsdev_ptr :: s.stderr })
    else
      (0, s)
  else if addr = FS_ADDR_PORT then
    if s.fsdev_addr_lvl ≠ 0 then
      (3, s)
    else if MAX_FSDEV_SIZE < s.fsdev_ptr then
      (2, s)
    else
      (0, s)
  else
    (0, { s with stderr := Diag.oobIoRead addr :: s.stderr })

/-- `io_write` from shell.c.  Takes the current state, the 16-bit port
number (masked with `0xff` like the C code) and the byte to write, and
returns the successor state.  Port 0 forwards to stdout except for the
CTRL+D byte `0x04`, which clears `running`; port 1 stores at the cursor
when the latch is idle and the cursor in bounds; port 2 advances the
3-phase address latch. -/
def io_write (s : ShellState) (addr : Nat) (val : Nat) : ShellState :=
  let addr := addr % 256
  if addr = STDIO_PORT then
    if val = 0x04 then
      { s with running := false }
    else
      { s with stdout := val :: s.stdout }
  else if addr = FS_DATA_PORT then
    if s.fsdev_addr_lvl ≠ 0 then
      { s with stderr := Diag.writeMidLatch s.fsdev_ptr :: s.stderr }
    else if s.fsdev_ptr < MAX_FSDEV_SIZE then
      { s with fsdev := fun i => if i = s.fsdev_ptr then val else s.fsdev i }
    else
      { s with stderr := Diag.oobFsdevWrite s.fsdev_ptr :: s.stderr }
  else if addr = FS_ADDR_PORT then
    if s.fsdev_addr_lvl = 0 then
      { s with fsdev_ptr := val <<< 16, fsdev_addr_lvl := 1 }
    else if s.fsdev_addr_lvl = 1 then
      { s with fsdev_ptr := s.fsdev_ptr ||| (val <<< 8), fsdev_addr_lvl := 2 }
    else
      { s with fsdev_ptr := s.fsdev_ptr ||| val, fsdev_addr_lvl := 0 }
  else
    { s with stderr := Diag.oobIoWrite addr val :: s.stderr }

/-- `mem_read` from shell.c: returns the byte of the memory image at the
16-bit address (the `% 65536` models the `uint16_t` parameter type). -/
def mem_read (s : ShellState) (addr : Nat) : Nat :=
  s.mem (addr % 65536)

/-- `mem_write` from shell.c: stores the byte at the 16-bit address.  If
the address is below `RAMSTART` a "writing to ROM" diagnostic is
emitted, but the write is performed regardless. -/
def mem_write (s : ShellState) (addr : Nat) (val : Nat) : ShellState :=
  let addr := addr % 65536
  let s := if addr < RAMSTART then
    { s with stderr := Diag.writeROM addr :: s.stderr }
  else s
  { s with mem := fun i => if i = addr then val else s.mem i }

/-- One port or memory operation as issued by the external CPU stepper
through its registered callbacks. -/
inductive Op where
  | ioRead (port : Nat)
  | ioWrite (port : Nat) (val : Nat)
  | memRead (a : Nat)
  | memWrite (a : Nat) (v : Nat)
  deriving DecidableEq, Repr

/-- The state-transforming effect of one callback invocation
(`memRead` has no effect on the harness state). -/
def step (s : ShellState) : Op → ShellState
  | Op.ioRead p => (io_read s p).2
  | Op.ioWrite p v => io_write s p v
  | Op.memRead _ => s
  | Op.memWrite a v => mem_write s a v

/-- Run a sequence of callback invocations from a state. -/
def run (s : ShellState) (ops : List Op) : ShellState :=
  ops.foldl step s

/-- The state right after `main`'s bootstrap: memory holds the kernel
image, the block-device buffer holds the packed filesystem image, the
cursor is 0, the latch is idle, and the run flag is set. -/
def initState (mem0 fsdev0 : Nat → Nat) (input : List Nat) : ShellState :=
  { mem := mem0, fsdev := fsdev0, fsdev_ptr := 0, fsdev_addr_lvl := 0,
    running := true, stdin := input, stdout := [], stderr := [] }

/-- A concrete bootstrap state with zeroed memory and device buffer. -/
def ex0 : ShellState :=
  initState (fun _ => 0) (fun _ => 0) []

/-- The complete 3-byte address-latch sequence `(hi, mid, lo)` written
to the address port. -/
def latch3 (s : ShellState) (hi mid lo : Nat) : ShellState :=
  io_write (io_write (io_write s FS_ADDR_PORT hi) FS_ADDR_PORT mid) FS_ADDR_PORT lo

/-- C1: from latch phase Idle, writing `(hi, mid, lo)` to the address
port leaves the 24-bit cursor at `(hi<<16)|(mid<<8)|lo` with the latch
back at Idle, so a subsequent in-bounds data-port read returns the
buffer byte at that cursor and a data-port write stores at it. -/
theorem addr_latch_sets_cursor (s : ShellState) (hi mid lo : Nat)
    (h : s.fsdev_addr_lvl = 0) (hhi : hi < 256) (hmid : mid < 256) (hlo : lo < 256) :
    (latch3 s hi mid lo).fsdev_ptr = (hi <<< 16) ||| (mid <<< 8) ||| lo ∧
    (latch3 s hi mid lo).fsdev_addr_lvl = 0 ∧
    ((latch3 s hi mid lo).fsdev_ptr < MAX_FSDEV_SIZE →
      (io_read (latch3 s hi mid lo) FS_DATA_PORT).1 =
        s.fsdev ((hi <<< 16) ||| (mid <<< 8) ||| lo) ∧
      (io_write (latch3 s hi mid lo) FS_DATA_PORT lo).fsdev
        ((hi <<< 16) ||| (mid <<< 8) ||| lo) = lo) := by
  simp [latch3, io_write, io_read, STDIO_PORT, FS_DATA_PORT, FS_ADDR_PORT, h]
  intro hlt
  simp [hlt]

/-- Witness for C1 at the end-to-end scenario of the spec: preload the
device buffer with `0xAB` at offset 5, latch `(0, 0, 5)`, read the data
port and obtain `0xAB`. -/
theorem addr_latch_sets_cursor_witness :
    (latch3 (initState (fun _ => 0) (fun i => if i = 5 then 0xAB else 0) []) 0 0 5).fsdev_ptr
      = (0 <<< 16) ||| (0 <<< 8) ||| 5 ∧
    (io_read (latch3 (initState (fun _ => 0) (fun i => if i = 5 then 0xAB else 0) []) 0 0 5)
      FS_DATA_PORT).1 = 0xAB := by
  have h := addr_latch_sets_cursor
    (initState (fun _ => 0) (fun i => if i = 5 then 0xAB else 0) []) 0 0 5
    rfl (by decide) (by decide) (by decide)
  refine ⟨h.1, ?_⟩
  have h3 := h.2.2 (by rw [h.1]; decide)
  rw [h3.1]
  decide

/-- C2: with the latch mid-sequence (phase ≠ Idle), a data-port read
returns 0 and changes nothing but the diagnostic stream, and a data-port
write is dropped: buffer, cursor and latch phase are untouched, only the
diagnostic stream grows. -/
theorem midlatch_data_access_rejected (s : ShellState) (v : Nat)
    (h : s.fsdev_addr_lvl ≠ 0) :
    (io_read s FS_DATA_PORT).1 = 0 ∧
    (io_read s FS_DATA_PORT).2 =
      { s with stderr := Diag.readMidLatch s.fsdev_ptr :: s.stderr } ∧
    io_write s FS_DATA_PORT v =
      { s with stderr := Diag.writeMidLatch s.fsdev_ptr :: s.stderr } := by
  simp [io_read, io_write, STDIO_PORT, FS_DATA_PORT, FS_ADDR_PORT, h]

/-- Witness for C2: after a single address-port write the latch is
mid-sequence and a data-port read yields 0. -/
theorem midlatch_data_access_rejected_witness :
    (io_read (io_write ex0 FS_ADDR_PORT 1) FS_DATA_PORT).1 = 0 :=
  (midlatch_data_access_rejected (io_write ex0 FS_ADDR_PORT 1) 0 (by decide)).1

/-- C3: with the latch Idle, a data-port access with the cursor at or
beyond capacity (131072) is rejected — the read returns 0 and the write
is dropped, each adding only an out-of-bounds diagnostic — while with
the cursor at capacity minus one (131071) a read returns the buffer
byte at the cursor and a write stores the byte at the cursor. -/
theorem data_port_bounds (s : ShellState) (v : Nat) (h : s.fsdev_addr_lvl = 0) :
    (MAX_FSDEV_SIZE ≤ s.fsdev_ptr →
      (io_read s FS_DATA_PORT).1 = 0 ∧
      (io_read s FS_DATA_PORT).2 =
        { s with stderr := Diag.oobFsdevRead s.fsdev_ptr :: s.stderr } ∧
      io_write s FS_DATA_PORT v =
        { s with stderr := Diag.oobFsdevWrite s.fsdev_ptr :: s.stderr }) ∧
    (s.fsdev_ptr = MAX_FSDEV_SIZE - 1 →
      (io_read s FS_DATA_PORT).1 = s.fsdev s.fsdev_ptr ∧
      (io_read s FS_DATA_PORT).2 = s ∧
      io_write s FS_DATA_PORT v =
        { s with fsdev := fun i => if i = s.fsdev_ptr then v else s.fsdev i }) := by
  constructor
  · intro hge
    have hnlt : ¬ s.fsdev_ptr < MAX_FSDEV_SIZE := Nat.not_lt.mpr hge
    simp [io_read, io_write, STDIO_PORT, FS_DATA_PORT, FS_ADDR_PORT, h, hnlt, hge]
  · intro heq
    have hlt : s.fsdev_ptr < MAX_FSDEV_SIZE := by rw [heq]; decide
    simp [io_read, io_write, STDIO_PORT, FS_DATA_PORT, FS_ADDR_PORT, h, hlt]

/-- A bootstrap state whose device buffer holds `i % 256` at offset `i`,
used to exercise boundary reads. -/
def exRamp : ShellState :=
  initState (fun _ => 0) (fun i => i % 256) []

/-- A state with the latch Idle and the cursor exactly at capacity. -/
def exAtCap : ShellState :=
  { exRamp with fsdev_ptr := MAX_FSDEV_SIZE }

/-- A state with the latch Idle and the cursor at capacity minus one. -/
def exLastByte : ShellState :=
  { exRamp with fsdev_ptr := MAX_FSDEV_SIZE - 1 }

/-- Witness for C3: at cursor 131072 the read is rejected with 0; at
cursor 131071 the read returns the buffer byte `131071 % 256 = 255`. -/
theorem data_port_bounds_witness :
    (io_read exAtCap FS_DATA_PORT).1 = 0 ∧
    (io_read exLastByte FS_DATA_PORT).1 = 255 := by
  constructor
  · exact ((data_port_bounds exAtCap 0 rfl).1 (by decide)).1
  · have h := ((data_port_bounds exLastByte 0 rfl).2 rfl).1
    rw [h]; decide

/-- C4: the status (address-port) read returns 3 whenever the latch is
mid-sequence, whatever the cursor; with the latch Idle it returns 2 when
the cursor is strictly greater than capacity and 0 otherwise — in
particular a cursor exactly at capacity reads status 0 even though the
data port rejects access there. -/
theorem status_port_read (s : ShellState) :
    (s.fsdev_addr_lvl ≠ 0 → (io_read s FS_ADDR_PORT).1 = 3) ∧
    (s.fsdev_addr_lvl = 0 →
      (io_read s FS_ADDR_PORT).1 =
        if MAX_FSDEV_SIZE < s.fsdev_ptr then 2 else 0) ∧
    (s.fsdev_addr_lvl = 0 → s.fsdev_ptr = MAX_FSDEV_SIZE →
      (io_read s FS_ADDR_PORT).1 = 0 ∧ (io_read s FS_DATA_PORT).1 = 0) := by
  refine ⟨fun h => ?_, fun h => ?_, fun h hcap => ?_⟩
  · simp [io_read, STDIO_PORT, FS_DATA_PORT, FS_ADDR_PORT, h]
  · by_cases h2 : MAX_FSDEV_SIZE < s.fsdev_ptr <;>
      simp [io_read, STDIO_PORT, FS_DATA_PORT, FS_ADDR_PORT, h, h2]
  · have hn : ¬ MAX_FSDEV_SIZE < s.fsdev_ptr := by rw [hcap]; exact Nat.lt_irrefl _
    have hnlt : ¬ s.fsdev_ptr < MAX_FSDEV_SIZE := by rw [hcap]; exact Nat.lt_irrefl _
    simp [io_read, STDIO_PORT, FS_DATA_PORT, FS_ADDR_PORT, h, hn, hnlt, hcap]

/-- Witness for C4: mid-latch status reads 3; at cursor exactly 131072
the status reads 0 while the data port yields the degenerate 0. -/
theorem status_port_read_witness :
    (io_read (io_write ex0 FS_ADDR_PORT 9) FS_ADDR_PORT).1 = 3 ∧
    (io_read exAtCap FS_ADDR_PORT).1 = 0 ∧
    (io_read exAtCap FS_DATA_PORT).1 = 0 := by
  refine ⟨(status_port_read (io_write ex0 FS_ADDR_PORT 9)).1 (by decide), ?_, ?_⟩
  · exact ((status_port_read exAtCap).2.2 rfl rfl).1
  · exact ((status_port_read exAtCap).2.2 rfl rfl).2

/-- C5 counterexample: the claim that completed latch sequences never
leave the cursor strictly greater than capacity — making the status-2
branch dead — is false.  From the bootstrap state, the three address-port
writes `(2, 0, 1)` complete a latch sequence leaving the cursor at
131073 > 131072, and a status read then returns 2. -/
theorem status2_branch_reachable_counterexample :
    (run ex0 [Op.ioWrite FS_ADDR_PORT 2, Op.ioWrite FS_ADDR_PORT 0,
              Op.ioWrite FS_ADDR_PORT 1]).fsdev_addr_lvl = 0 ∧
    (run ex0 [Op.ioWrite FS_ADDR_PORT 2, Op.ioWrite FS_ADDR_PORT 0,
              Op.ioWrite FS_ADDR_PORT 1]).fsdev_ptr = 131073 ∧
    MAX_FSDEV_SIZE < 131073 ∧
    (io_read (run ex0 [Op.ioWrite FS_ADDR_PORT 2, Op.ioWrite FS_ADDR_PORT 0,
              Op.ioWrite FS_ADDR_PORT 1]) FS_ADDR_PORT).1 = 2 := by
  refine ⟨rfl, rfl, by decide, rfl⟩

/-- C5 amended: a completed address-latch sequence can leave the cursor
strictly greater than capacity (any 24-bit value is latchable), so the
status-port value-2 branch is reachable under normal sequencing rather
than dead; after any completed sequence the status read returns 2
exactly when the resulting cursor exceeds capacity. -/
theorem status2_branch_live (s : ShellState) (hi mid lo : Nat)
    (h : s.fsdev_addr_lvl = 0) :
    (latch3 s hi mid lo).fsdev_addr_lvl = 0 ∧
    ((io_read (latch3 s hi mid lo) FS_ADDR_PORT).1 = 2 ↔
      MAX_FSDEV_SIZE < (latch3 s hi mid lo).fsdev_ptr) := by
  refine ⟨by simp [latch3, io_write, STDIO_PORT, FS_DATA_PORT, FS_ADDR_PORT, h], ?_⟩
  by_cases h2 : MAX_FSDEV_SIZE < (latch3 s hi mid lo).fsdev_ptr <;>
    [skip; skip] <;>
  · have hl : (latch3 s hi mid lo).fsdev_addr_lvl = 0 := by
      simp [latch3, io_write, STDIO_PORT, FS_DATA_PORT, FS_ADDR_PORT, h]
    simp [io_read, STDIO_PORT, FS_DATA_PORT, FS_ADDR_PORT, hl, h2]

/-- Witness for the amended C5: latching `(2, 0, 1)` from the bootstrap
state makes the status port read 2. -/
theorem status2_branch_live_witness :
    (io_read (latch3 ex0 2 0 1) FS_ADDR_PORT).1 = 2 :=
  ((status2_branch_live ex0 2 0 1 rfl).2).mpr (by decide)

/-- C6: a memory write of byte `v` at 16-bit address `a` always takes
effect — a subsequent read at `a` returns `v` even for `a` in the ROM
region — and the "writing to ROM" diagnostic is emitted exactly when
`a < RAMSTART` (0x4000), the write never being blocked. -/
theorem mem_write_then_read (s : ShellState) (a v : Nat)
    (ha : a < 65536) (hv : v < 256) :
    mem_read (mem_write s a v) a = v ∧
    (mem_write s a v).mem a = v ∧
    (mem_write s a v).stderr =
      (if a < RAMSTART then Diag.writeROM a :: s.stderr else s.stderr) := by
  have hmod : a % 65536 = a := Nat.mod_eq_of_lt ha
  by_cases hrom : a < RAMSTART <;>
    simp [mem_read, mem_write, hmod, hrom]

/-- Witness for C6 at the spec's end-to-end scenario: a write at 0x1000
(inside the ROM region) is observed by a subsequent read while the ROM
diagnostic is recorded. -/
theorem mem_write_then_read_witness :
    mem_read (mem_write ex0 0x1000 0xAB) 0x1000 = 0xAB ∧
    (mem_write ex0 0x1000 0xAB).stderr = [Diag.writeROM 0x1000] := by
  have h := mem_write_then_read ex0 0x1000 0xAB (by decide) (by decide)
  refine ⟨h.1, ?_⟩
  rw [h.2.2]
  decide

/-- C7: a console-port write of the byte 0x04 clears the run flag and
changes nothing else — in particular the byte never reaches the output
stream — while a write of any other byte appends exactly that byte to
the output stream and changes nothing else; every console write is
total. -/
theorem console_write_spec (s : ShellState) (v : Nat) (hv : v < 256) :
    (v = 0x04 → io_write s STDIO_PORT v = { s with running := false }) ∧
    (v ≠ 0x04 → io_write s STDIO_PORT v = { s with stdout := v :: s.stdout }) := by
  constructor
  · intro h4
    simp [io_write, STDIO_PORT, FS_DATA_PORT, FS_ADDR_PORT, h4]
  · intro h4
    simp [io_write, STDIO_PORT, FS_DATA_PORT, FS_ADDR_PORT, h4]

/-- Witness for C7: writing 0x04 halts without echo; writing 0x58 ('X')
leaves it verbatim on the output stream with the run flag still set. -/
theorem console_write_spec_witness :
    io_write ex0 STDIO_PORT 0x04 = { ex0 with running := false } ∧
    io_write ex0 STDIO_PORT 0x58 = { ex0 with stdout := [0x58] } ∧
    (io_write ex0 STDIO_PORT 0x58).running = true := by
  refine ⟨(console_write_spec ex0 0x04 (by decide)).1 rfl, ?_, rfl⟩
  exact (console_write_spec ex0 0x58 (by decide)).2 (by decide)

/-- C8: a data-port read — in-bounds, out-of-bounds, or mid-latch —
leaves the cursor (no auto-increment), the latch phase, the block-device
buffer, the memory image, the run flag and both console streams exactly
as they were; only the diagnostic stream may grow. -/
theorem data_port_read_frame (s : ShellState) :
    (io_read s FS_DATA_PORT).2.fsdev_ptr = s.fsdev_ptr ∧
    (io_read s FS_DATA_PORT).2.fsdev_addr_lvl = s.fsdev_addr_lvl ∧
    (io_read s FS_DATA_PORT).2.fsdev = s.fsdev ∧
    (io_read s FS_DATA_PORT).2.mem = s.mem ∧
    (io_read s FS_DATA_PORT).2.running = s.running ∧
    (io_read s FS_DATA_PORT).2.stdin = s.stdin ∧
    (io_read s FS_DATA_PORT).2.stdout = s.stdout := by
  by_cases h0 : s.fsdev_addr_lvl = 0
  · by_cases hlt : s.fsdev_ptr < MAX_FSDEV_SIZE
    · simp [io_read, STDIO_PORT, FS_DATA_PORT, FS_ADDR_PORT, h0, hlt]
    · have hge : MAX_FSDEV_SIZE ≤ s.fsdev_ptr := Nat.not_lt.mp hlt
      simp [io_read, STDIO_PORT, FS_DATA_PORT, FS_ADDR_PORT, h0, hlt, hge]
  · simp [io_read, STDIO_PORT, FS_DATA_PORT, FS_ADDR_PORT, h0]

/-- C9: from latch phase Idle, latching `(hi, mid, lo)`, reading the
data port, then latching the same `(hi, mid, lo)` again gives the same
cursor after each completed sequence and the same data-port read result
both times. -/
theorem latch_read_idempotent (s : ShellState) (hi mid lo : Nat)
    (h : s.fsdev_addr_lvl = 0) :
    (latch3 (io_read (latch3 s hi mid lo) FS_DATA_PORT).2 hi mid lo).fsdev_ptr =
      (latch3 s hi mid lo).fsdev_ptr ∧
    (io_read (latch3 (io_read (latch3 s hi mid lo) FS_DATA_PORT).2 hi mid lo)
        FS_DATA_PORT).1 =
      (io_read (latch3 s hi mid lo) FS_DATA_PORT).1 := by
  have h1 : (latch3 s hi mid lo).fsdev_addr_lvl = 0 := by
    simp [latch3, io_write, STDIO_PORT, FS_DATA_PORT, FS_ADDR_PORT, h]
  have hfs1 : (latch3 s hi mid lo).fsdev = s.fsdev := by
    simp [latch3, io_write, STDIO_PORT, FS_DATA_PORT, FS_ADDR_PORT, h]
  have hp1 : (latch3 s hi mid lo).fsdev_ptr = (hi <<< 16) ||| (mid <<< 8) ||| lo := by
    simp [latch3, io_write, STDIO_PORT, FS_DATA_PORT, FS_ADDR_PORT, h]
  have hfr := data_port_read_frame (latch3 s hi mid lo)
  set s1 := (io_read (latch3 s hi mid lo) FS_DATA_PORT).2 with hs1
  have hl1 : s1.fsdev_addr_lvl = 0 := by rw [hfr.2.1, h1]
  have hp2 : (latch3 s1 hi mid lo).fsdev_ptr = (hi <<< 16) ||| (mid <<< 8) ||| lo := by
    simp [latch3, io_write, STDIO_PORT, FS_DATA_PORT, FS_ADDR_PORT, hl1]
  have hl2 : (latch3 s1 hi mid lo).fsdev_addr_lvl = 0 := by
    simp [latch3, io_write, STDIO_PORT, FS_DATA_PORT, FS_ADDR_PORT, hl1]
  have hfs2 : (latch3 s1 hi mid lo).fsdev = s.fsdev := by
    have : s1.fsdev = s.fsdev := by rw [hfr.2.2.1, hfs1]
    simp [latch3, io_write, STDIO_PORT, FS_DATA_PORT, FS_ADDR_PORT, hl1, this]
  refine ⟨by rw [hp1, hp2], ?_⟩
  by_cases hc : ((hi <<< 16) ||| (mid <<< 8) ||| lo) < MAX_FSDEV_SIZE
  · simp [io_read, STDIO_PORT, FS_DATA_PORT, FS_ADDR_PORT, h1, hl2, hp1, hp2, hfs1,
      hfs2, hc]
  · have hge : MAX_FSDEV_SIZE ≤ (hi <<< 16) ||| (mid <<< 8) ||| lo := Nat.not_lt.mp hc
    simp [io_read, STDIO_PORT, FS_DATA_PORT, FS_ADDR_PORT, h1, hl2, hp1, hp2, hfs1,
      hfs2, hc, hge]

/-- Witness for C9: latching `(0, 0, 5)` twice over a buffer holding
`0xAB` at offset 5 returns cursor 5 and byte `0xAB` both times. -/
theorem latch_read_idempotent_witness :
    (latch3 (io_read (latch3 (initState (fun _ => 0) (fun i => if i = 5 then 0xAB else 0) [])
        0 0 5) FS_DATA_PORT).2 0 0 5).fsdev_ptr =
      (latch3 (initState (fun _ => 0) (fun i => if i = 5 then 0xAB else 0) [])
        0 0 5).fsdev_ptr ∧
    (io_read (latch3 (io_read (latch3 (initState (fun _ => 0)
        (fun i => if i = 5 then 0xAB else 0) []) 0 0 5) FS_DATA_PORT).2 0 0 5)
        FS_DATA_PORT).1 = 0xAB := by
  have h := latch_read_idempotent
    (initState (fun _ => 0) (fun i => if i = 5 then 0xAB else 0) []) 0 0 5 rfl
  refine ⟨h.1, ?_⟩
  rw [h.2]
  decide

/-- C10: when the console input stream has reached end-of-stream, a
console-port read clears the run flag and returns the sentinel byte
0xff, the 8-bit truncation of `EOF`. -/
theorem console_read_eof (s : ShellState) (h : s.stdin = []) :
    io_read s STDIO_PORT = (0xff, { s with running := false }) := by
  simp [io_read, STDIO_PORT, h]

/-- Witness for C10: a console read on the bootstrap state with no
pending input returns 0xff and clears the run flag. -/
theorem console_read_eof_witness :
    io_read ex0 STDIO_PORT = (0xff, { ex0 with running := false }) :=
  console_read_eof ex0 rfl
